import Mathlib

/-!
Verification of the spreadsheet-to-schema compiler in
`src/api-gateway/src/helpers/policy-engine.ts` (classes `XlsxResult` and
`XlsxToJson`).  The TypeScript code is shallowly embedded: each method
becomes a Lean function, mutable state (the `XlsxResult` accumulator, the
per-sheet field and condition caches) is threaded explicitly, JavaScript
`string | null | undefined` cells become an explicit three-valued type, and
thrown exceptions become `Except`.  External collaborators that are not part
of the repository (the workbook cell grid, `mathjs`, the dictionary / header
/ condition helper modules that only callers appear for) are modelled from
the specification where noted.
-/

namespace Guardian

/-- JavaScript value of type `string | null | undefined`, used wherever the
source assigns a string, `null`, or leaves a property `undefined`. -/
inductive JStr where
  | s (v : String)
  | null
  | undef
deriving DecidableEq, Repr

/-- JavaScript truthiness of a `string | null | undefined` value: the empty
string, `null` and `undefined` are falsy. -/
def JStr.truthy : JStr → Bool
  | .s v => v ≠ ""
  | .null => false
  | .undef => false

/-- Text produced when a `JStr` is spliced into a template literal, as in
the source's error message for a missing sub-schema. -/
def JStr.text : JStr → String
  | .s v => v
  | .null => "null"
  | .undef => "undefined"

/-- JavaScript truthiness of an optional string (`undefined` or a string). -/
def jsTruthyOpt : Option String → Bool
  | some v => v ≠ ""
  | none => false

/-- Structured error collected by `XlsxResult` (`models/error`): text,
message, and optional worksheet / position context. -/
structure XlsxError where
  text : String
  message : String
  worksheet : Option String := none
  row : Option Int := none
  col : Option Int := none
  cell : Option String := none
deriving DecidableEq, Repr

/-- Font descriptor (bold / color / size) as produced by `xlsxToFont`. -/
structure FontDescr where
  bold : Bool
  color : String
  size : String
deriving DecidableEq, Repr

/-- A schema field as initialised and populated by `XlsxToJson.readField`.
Properties that the source may leave `null`/`undefined` are `JStr` or
`Option` valued. -/
structure SchemaField where
  name : String := ""
  description : String := ""
  required : Bool := false
  isArray : Bool := false
  readOnly : Bool := false
  hidden : Option Bool := some false
  type : JStr := .null
  format : JStr := .null
  pattern : JStr := .null
  unit : JStr := .null
  unitSystem : JStr := .null
  customType : JStr := .null
  property : JStr := .null
  isRef : Option Bool := none
  enum : Option (List String) := none
  font : Option FontDescr := none
  textBold : Option Bool := none
  textColor : Option String := none
  textSize : Option String := none
  examples : Option (List String) := none
  errors : List XlsxError := []
deriving DecidableEq, Repr

/-- Schema category (`SchemaCategory` in `@guardian/interfaces`). -/
inductive SchemaCategory where
  | POLICY
  | TOOL
deriving DecidableEq, Repr

/-- Condition parse result of `XlsxToJson.parseCondition`: either a constant
boolean or a formula comparing a referenced field to a literal. -/
inductive CondResult where
  | const (value : Bool)
  | formulae (field : String) (value : String) (invert : Bool)
deriving DecidableEq, Repr

/-- A `mathjs` expression tree, restricted to the node kinds that
`parseCondition` inspects (`FunctionNode`, `SymbolNode`, `ConstantNode`);
every other node kind behaves like `other`.  `mathjs` itself is an external
library; the compiler only walks the tree shape. -/
inductive MathNode where
  | func (fn : String) (args : List MathNode)
  | symbol (sym : String)
  | constant (val : String)
  | other

/-- The recursive tree walk `parsFn` inside `XlsxToJson.parseCondition`,
verbatim from the source: an `EXACT` call with a symbol and a constant (in
either order) yields a `(field, value, invert)` triple, a `NOT` call
recurses with `invert := true`, anything else yields `null`.  Note that in
the constant-first branch the source assigns `field := args[0].value` and
`value := args[1].name`. -/
def parsFn (t : MathNode) (invert : Bool) : Option (String × String × Bool) :=
  match t with
  | .func "EXACT" [.symbol n, .constant v] => some (n, v, invert)
  | .func "EXACT" [.constant v, .symbol n] => some (v, n, invert)
  | .func "NOT" [a] => parsFn a true
  | _ => none

/-- Input to `parseCondition`: either the raw formula string together with
the `mathjs` parse of it (`none` models a `mathjs.parse` throw), or a plain
boolean (the `xlsxToBoolean`-coerced cell value). -/
inductive CondInput where
  | strF (raw : String) (tree : Option MathNode)
  | boolF (b : Bool)

/-- `XlsxToJson.parseCondition`: empty formula yields `null`; the literals
`TRUE`/`FALSE` (or booleans) yield constants; otherwise the `mathjs` tree is
walked by `parsFn` and a failure to match throws. -/
def parseCondition : CondInput → Except String (Option CondResult)
  | .strF raw tree =>
    if raw = "" then .ok none
    else if raw = "TRUE" then .ok (some (.const true))
    else if raw = "FALSE" then .ok (some (.const false))
    else
      match tree with
      | none => .error "mathjs parse error"
      | some t =>
        match parsFn t false with
        | some (f, v, i) => .ok (some (.formulae f v i))
        | none => .error ("Failed to parse formulae: " ++ raw ++ ".")
  | .boolF b => .ok (some (.const b))

/- Modelled from the spec: the header-label vocabulary of
`models/dictionary` (`Dictionary`), whose source is not under `src/`; the
spec lists the vocabulary (schema name, description, type, tool,
tool-reference-id, field-type, question, answer, required, allow-multiple,
parameter, visibility) and the end-to-end examples use the labels
`Field Type`, `Tool` and `Tool Id`.  Only distinctness and identity of the
labels matter to the compiler. -/
namespace Dictionary

def SCHEMA_NAME : String := "Schema name"

def SCHEMA_DESCRIPTION : String := "Schema description"

def SCHEMA_TYPE : String := "Schema type"

def SCHEMA_TOOL : String := "Tool"

def SCHEMA_TOOL_ID : String := "Tool Id"

def FIELD_TYPE : String := "Field Type"

def QUESTION : String := "Question"

def ANSWER : String := "Answer"

def REQUIRED_FIELD : String := "Required"

def ALLOW_MULTIPLE_ANSWERS : String := "Allow Multiple Answers"

def PARAMETER : String := "Parameter"

def VISIBILITY : String := "Visibility"

def AUTO_CALCULATE : String := "Auto-Calculate"

/-- Field-column header labels. -/
def fieldHeaders : List String :=
  [FIELD_TYPE, QUESTION, ANSWER, REQUIRED_FIELD,
   ALLOW_MULTIPLE_ANSWERS, PARAMETER, VISIBILITY]

/-- Schema-row header labels (the schema name row is located separately via
`isName`). -/
def schemaHeaders : List String :=
  [SCHEMA_DESCRIPTION, SCHEMA_TYPE, SCHEMA_TOOL, SCHEMA_TOOL_ID]

/-- Modelled from the spec: the required field-column headers checked by
`Table.getErrorHeader`; the visibility column is optional (the condition
reader explicitly skips when it is absent). -/
def requiredHeaders : List String :=
  [FIELD_TYPE, QUESTION, ANSWER, REQUIRED_FIELD,
   ALLOW_MULTIPLE_ANSWERS, PARAMETER]

end Dictionary

/-- Character-level lower-casing (kernel-computable stand-in for
`String.toLowerCase`). -/
def lowerStr (s : String) : String :=
  String.mk (s.data.map Char.toLower)

/-- Character-level whitespace trimming (JavaScript `String.trim`). -/
def jsTrim (s : String) : String :=
  String.mk (((s.data.dropWhile Char.isWhitespace).reverse.dropWhile
    Char.isWhitespace).reverse)

/-- Helper for `splitOnChar`. -/
def splitCharAux (sep : Char) : List Char → List Char → List String
  | [], acc => [String.mk acc.reverse]
  | c :: rest, acc =>
    if c = sep then String.mk acc.reverse :: splitCharAux sep rest []
    else splitCharAux sep rest (c :: acc)

/-- Split a string at every occurrence of a separator character. -/
def splitOnChar (sep : Char) (s : String) : List String :=
  splitCharAux sep s.data []

/-- Modelled from the spec: `xlsxToBoolean` of `models/value-converters`
(not under `src/`) — a case-insensitive truthy keyword set, with absent or
unrecognized text mapping to `false`. -/
def xlsxToBoolean (s : String) : Bool :=
  lowerStr s = "true" || lowerStr s = "yes"

/-- Modelled from the spec: `xlsxToArray` — split on a delimiter, trimmed,
empty entries dropped, single vs. multi-value controlled by the array
flag. -/
def xlsxToArray (s : String) (isArray : Bool) : List String :=
  if isArray then ((splitOnChar ',' s).map jsTrim).filter (· ≠ "")
  else [s]

/-- Modelled from the spec: `xlsxToEntity` — a fixed label set mapped to the
entity-category enum, unknown labels mapping to `null`. -/
def xlsxToEntity (s : String) : Option String :=
  if s = "VC" then some "VC" else if s = "EVC" then some "EVC" else none

/-- Modelled from the spec: `xlsxToUnit` — a unit descriptor derived from a
cell's number-format string. -/
def xlsxToUnit (format : String) : JStr :=
  if format = "" then .null else .s format

/-- Modelled from the spec: `xlsxToFont` — bold / color / size extracted
from styling metadata or from a structured text encoding. -/
def xlsxToFont (s : String) : FontDescr :=
  let parts := splitOnChar ';' s
  { bold := parts.contains "bold"
    color := ((parts.filter (fun p => p.data.head? == some '#')).headD "#000000")
    size := ((parts.filter (fun p => p.data.getLast? == some 'x')).headD "18px") }

/-- Helper for `splitLines`: split a character list at every `\r\n` or
`\n`. -/
def splitLinesAux : List Char → List Char → List String
  | [], acc => [String.mk acc.reverse]
  | '\r' :: '\n' :: rest, acc => String.mk acc.reverse :: splitLinesAux rest []
  | '\n' :: rest, acc => String.mk acc.reverse :: splitLinesAux rest []
  | c :: rest, acc => splitLinesAux rest (c :: acc)

/-- JavaScript `String.prototype.split(/\r?\n/)` as used for the
newline-delimited enum parameter. -/
def splitLines (s : String) : List String :=
  splitLinesAux s.data []

/-- Hyperlink attached to a cell (`models/workbook`), carrying an optional
target worksheet name. -/
structure Hyperlink where
  worksheet : Option String := none
deriving DecidableEq, Repr

/-- One cell of the worksheet grid, exposing the introspection the compiler
needs: typed value, raw formula (with its `mathjs` parse; `none` models a
`mathjs.parse` throw), hyperlink, number format, data-validation list, and
font metadata.  The workbook itself is an external collaborator. -/
structure CellData where
  value : String := ""
  formulaRaw : Option String := none
  formulaTree : Option MathNode := none
  link : Option Hyperlink := none
  format : String := ""
  list : Option (List String) := none
  font : String := ""

/-- The default (absent) cell. -/
def emptyCell : CellData := {}

/-- A worksheet: a name, a bounding range `(sC, sR)`–`(eC, eR)` of populated
cells, and a sparse grid keyed by `(column, row)`. -/
structure Worksheet where
  name : String
  sC : Int := 0
  sR : Int := 0
  eC : Int
  eR : Int
  cells : List (Int × Int × CellData) := []

/-- Cell lookup by (column, row); absent cells read as the empty cell. -/
def Worksheet.getCell (w : Worksheet) (c r : Int) : CellData :=
  match w.cells.find? (fun x => x.1 == c && x.2.1 == r) with
  | some x => x.2.2
  | none => emptyCell

/-- Typed value read of a cell (empty string when absent). -/
def Worksheet.getValue (w : Worksheet) (c r : Int) : String :=
  (w.getCell c r).value

/-- Modelled from the spec: `Worksheet.getPath` of `models/workbook` (not
under `src/`) — a structured path built from the answer cell's position,
giving fields a stable position-derived identity.  Any injective encoding of
the coordinates serves. -/
def cellPath (c r : Int) : String :=
  "C" ++ toString c ++ "R" ++ toString r

/-- Modelled from the spec: `Worksheet.outColumnRange` — true when the
column index does not denote an existing column of the sheet (in particular
for the `-1` sentinel of an unset header). -/
def Worksheet.outColumnRange (w : Worksheet) (c : Int) : Bool :=
  c < w.sC || c > w.eC

/-- Modelled from the spec: the per-worksheet header table of
`models/header-utils` (`Table`, not under `src/`): a mapping from header
labels to discovered row/column coordinates plus the end corner set by
`setEnd`; lookups of unset labels return the sentinel `-1`. -/
structure Table where
  rows : List (String × Int) := []
  cols : List (String × Int) := []
  endC : Int
  endR : Int

/-- Fresh table anchored at the range start, as `new Table(range.s)`. -/
def Table.init (sC sR : Int) : Table := { endC := sC, endR := sR }

/-- Association-list update with JavaScript `Map.set` semantics: replace in
place when the key exists, append otherwise. -/
def setAssoc {α : Type} (k : String) (v : α) : List (String × α) → List (String × α)
  | [] => [(k, v)]
  | (k₀, v₀) :: rest =>
    if k₀ = k then (k, v) :: rest else (k₀, v₀) :: setAssoc k v rest

/-- Association-list lookup (JavaScript `Map.get`). -/
def getAssoc {α : Type} (k : String) : List (String × α) → Option α
  | [] => none
  | (k₀, v₀) :: rest => if k₀ = k then some v₀ else getAssoc k rest

def Table.setRow (t : Table) (label : String) (r : Int) : Table :=
  { t with rows := setAssoc label r t.rows }

def Table.setCol (t : Table) (label : String) (c : Int) : Table :=
  { t with cols := setAssoc label c t.cols }

/-- Row lookup; unset labels give the sentinel `-1`. -/
def Table.getRow (t : Table) (label : String) : Int :=
  (getAssoc label t.rows).getD (-1)

/-- Column lookup; unset labels give the sentinel `-1`. -/
def Table.getCol (t : Table) (label : String) : Int :=
  (getAssoc label t.cols).getD (-1)

def Table.setEnd (t : Table) (c r : Int) : Table :=
  { t with endC := c, endR := r }

/-- Modelled from the spec: `Table.isName` — whether the first row's first
cell can serve as the schema name (a populated cell). -/
def Table.isName (_t : Table) (title : String) : Bool :=
  title ≠ ""

/-- Whether a title is one of the schema-row header labels. -/
def Table.isSchemaHeader (_t : Table) (title : String) : Bool :=
  Dictionary.schemaHeaders.contains title

/-- Whether a value is one of the field-column header labels. -/
def Table.isFieldHeader (_t : Table) (value : String) : Bool :=
  Dictionary.fieldHeaders.contains value

/-- Modelled from the spec: `Table.getErrorHeader` — the first
required-but-unset field-column header, if any. -/
def Table.getErrorHeader (t : Table) : Option String :=
  Dictionary.requiredHeaders.find? (fun h => t.getCol h == -1)

/-- One entry of the field-type registry (`IFieldTypes` of
`models/dictionary`): the canonical type metadata copied onto a field whose
declared type label matches the entry's name. -/
structure IFieldTypes where
  name : String
  type : JStr := .null
  format : JStr := .null
  pattern : JStr := .null
  unit : JStr := .null
  unitSystem : JStr := .null
  customType : JStr := .null
  hidden : Option Bool := none
  isRef : Option Bool := some false
deriving DecidableEq, Repr

/-- Modelled from the spec: the field-type registry (`FieldTypes` of
`models/dictionary`, not under `src/`).  The compiler only needs a closed
list of entries with known names — in particular the four names with
type-specific parameter extraction (`Prefix`, `Postfix`, `Enum`,
`Help Text`) plus ordinary primitive entries. -/
def FieldTypes.registry : List IFieldTypes :=
  [ { name := "Text", type := .s "string" },
    { name := "Number", type := .s "number" },
    { name := "Date", type := .s "string", format := .s "date" },
    { name := "URL", type := .s "string", format := .s "url",
      pattern := .s "^((https?):\x2f\x2f)" },
    { name := "Prefix", type := .s "number", unitSystem := .s "prefix" },
    { name := "Postfix", type := .s "number", unitSystem := .s "postfix" },
    { name := "Enum", type := .s "string", customType := .s "enum" },
    { name := "Help Text", type := .s "null", customType := .s "helpText",
      hidden := some true },
    { name := "GeoJSON", type := .s "#GeoJSON", isRef := some true },
    { name := Dictionary.AUTO_CALCULATE, type := .s "string" } ]

/-- `FieldTypes.findByName`: the registry entry whose name equals the
declared type label (the empty label matches no entry). -/
def FieldTypes.findByName (ty : String) : Option IFieldTypes :=
  FieldTypes.registry.find? (fun e => e.name == ty)

/-- Tool identity triple held in `XlsxResult._toolsCache` (`ITool`). -/
structure ITool where
  uuid : Option String := none
  name : Option String := none
  messageId : Option String := none
deriving DecidableEq, Repr

/-- Reference-cache entry (`ICache`): a display name plus the resolved IRI
and/or owning tool id once known. -/
structure ICache where
  name : String
  iri : Option String := none
  toolId : Option String := none
deriving DecidableEq, Repr

/-- Link-cache entry (`ILink`): the reference's display text and the target
worksheet from a hyperlink, when present. -/
structure ILink where
  name : String
  worksheet : Option String := none
deriving DecidableEq, Repr

/-- Parsed visibility condition (`XlsxSchemaConditions` of
`models/schema-condition`, not under `src/`).  Modelled from the spec: a
driving field reference, a comparison value and the accumulated
(dependent field, invert-flag) pairs; two conditions are equal when they
share the same driving field and comparison value, and `addField` appends a
dependent. -/
structure XlsxSchemaConditions where
  field : Option String
  value : String
  conds : List (Option String × Bool) := []
deriving DecidableEq, Repr

/-- Condition equality: same driving field and same comparison value. -/
def XlsxSchemaConditions.equal (c : XlsxSchemaConditions)
    (f : String) (v : String) : Bool :=
  c.field == some f && c.value == v

/-- Accumulate one (dependent field, invert) pair. -/
def XlsxSchemaConditions.addField (c : XlsxSchemaConditions)
    (dep : Option String) (invert : Bool) : XlsxSchemaConditions :=
  { c with conds := c.conds ++ [(dep, invert)] }

/-- Modelled from the spec: serialization of a condition
(`XlsxSchemaConditions.toJson`); the carried data is already the serialized
shape. -/
def XlsxSchemaConditions.toJson (c : XlsxSchemaConditions) :
    XlsxSchemaConditions := c

/-- A schema under construction (`Schema` of `@guardian/interfaces`,
projected to the properties this compiler reads and writes). -/
structure JSchema where
  id : Option String := none
  iri : Option String := none
  name : String := ""
  description : String := ""
  version : Option String := none
  status : Option String := none
  entity : Option String := none
  category : SchemaCategory := .POLICY
  messageId : Option String := none
  fields : List SchemaField := []
  conditions : List XlsxSchemaConditions := []
  errors : List XlsxError := []
deriving DecidableEq, Repr

/-- The mutable state of an `XlsxResult` instance: accumulated schemas,
tools and errors plus the four reference/link cache maps (association lists
in `Map` insertion order; the tools cache key is the possibly-undefined
message id). -/
structure XlsxResultState where
  schemas : List JSchema := []
  tools : List ITool := []
  errors : List XlsxError := []
  toolsCache : List (Option String × ITool) := []
  schemaWorksheetCache : List (String × ICache) := []
  schemaNameCache : List (String × ICache) := []
  linkCache : List (String × ILink) := []
deriving DecidableEq, Repr

/-- `Map.set` over the tools cache (optional-string keys). -/
def setToolAssoc (k : Option String) (v : ITool) :
    List (Option String × ITool) → List (Option String × ITool)
  | [] => [(k, v)]
  | (k₀, v₀) :: rest =>
    if k₀ = k then (k, v) :: rest else (k₀, v₀) :: setToolAssoc k v rest

/-- `XlsxResult.addError` restricted to the global list (the `target`
argument, when present, additionally receives the error; callers of the
embedding attach it themselves because the aliased target object is
represented functionally). -/
def XlsxResultState.pushError (st : XlsxResultState) (e : XlsxError) :
    XlsxResultState :=
  { st with errors := st.errors ++ [e] }

/-- `XlsxResult.addTool`: register the tool identity under its message id
and cache the worksheet under both addressing schemes. -/
def XlsxResultState.addTool (st : XlsxResultState) (w : Worksheet)
    (name : String) (messageId : Option String) : XlsxResultState :=
  let tool : ITool :=
    { uuid := messageId, name := messageId, messageId := messageId }
  let cache : ICache := { name := name, toolId := messageId }
  { st with
    toolsCache := setToolAssoc messageId tool st.toolsCache
    schemaWorksheetCache := setAssoc w.name cache st.schemaWorksheetCache
    schemaNameCache :=
      setAssoc ("tool-schema:" ++ name) cache st.schemaNameCache }

/-- `XlsxResult.addSchema`: push the schema and cache it under both the
worksheet name and the declared name. -/
def XlsxResultState.addSchema (st : XlsxResultState) (w : Worksheet)
    (name : String) (schema : JSchema) : XlsxResultState :=
  let cache : ICache := { name := name, iri := schema.iri }
  { st with
    schemas := st.schemas ++ [schema]
    schemaWorksheetCache := setAssoc w.name cache st.schemaWorksheetCache
    schemaNameCache := setAssoc name cache st.schemaNameCache }

/-- `XlsxResult.addLink`: mint a `link_<n>` id from the cache size and
record the reference's display text and hyperlink worksheet. -/
def XlsxResultState.addLink (st : XlsxResultState) (name : String)
    (hyperlink : Option Hyperlink) : String × XlsxResultState :=
  let id := "link_" ++ toString st.linkCache.length
  let worksheet := match hyperlink with
    | some h => h.worksheet
    | none => none
  (id, { st with
          linkCache := st.linkCache ++ [(id, { name := name, worksheet := worksheet })] })

/-- `XlsxResult.clear`: empty the schemas, the tools and all four cache
maps.  The accumulated error list is not touched. -/
def XlsxResultState.clear (st : XlsxResultState) : XlsxResultState :=
  { st with
    schemas := []
    tools := []
    toolsCache := []
    schemaWorksheetCache := []
    schemaNameCache := []
    linkCache := [] }

/-- Summary projection of one schema as serialized by
`XlsxResult.toJson`. -/
structure SchemaSummary where
  id : Option String := none
  iri : Option String := none
  name : String := ""
  description : String := ""
  version : Option String := none
  status : Option String := none
deriving DecidableEq, Repr

/-- The serialized output object of `XlsxResult.toJson`. -/
structure XlsxJson where
  schemas : List SchemaSummary
  tools : List ITool
  errors : List XlsxError
deriving DecidableEq, Repr

/-- `XlsxResult.toJson`: schema summaries, the tools-cache values, and the
error list. -/
def XlsxResultState.toJson (st : XlsxResultState) : XlsxJson :=
  { schemas := st.schemas.map (fun s =>
      { id := s.id, iri := s.iri, name := s.name,
        description := s.description, version := s.version,
        status := s.status })
    tools := st.toolsCache.map (·.2)
    errors := st.errors }

/-- Set a font descriptor onto a field (`field.font`, `field.textBold`,
`field.textColor`, `field.textSize`), as the `Help Text` branches do. -/
def SchemaField.applyFont (f : SchemaField) (fd : FontDescr) : SchemaField :=
  { f with font := some fd, textBold := some fd.bold,
           textColor := some fd.color, textSize := some fd.size }

/-- `XlsxToJson.readFieldParams`: derive type-specific values (unit from the
answer cell's number format for `Prefix`/`Postfix`, the enum list from the
answer cell's data validation for `Enum`, the font from the question cell's
styling for `Help Text`), then let a non-empty parameter cell override them
completely.  Exceptions are caught at this boundary in the source; the
embedding is total, so the catch never fires. -/
def readFieldParams (w : Worksheet) (t : Table) (f : SchemaField)
    (ft : IFieldTypes) (row : Int) : SchemaField :=
  let param := w.getValue (t.getCol Dictionary.PARAMETER) row
  let f :=
    if ft.name == "Prefix" then
      { f with unit := xlsxToUnit ((w.getCell (t.getCol Dictionary.ANSWER) row).format) }
    else f
  let f :=
    if ft.name == "Postfix" then
      { f with unit := xlsxToUnit ((w.getCell (t.getCol Dictionary.ANSWER) row).format) }
    else f
  let f :=
    if ft.name == "Enum" then
      { f with enum := (w.getCell (t.getCol Dictionary.ANSWER) row).list }
    else f
  let f :=
    if ft.name == "Help Text" then
      f.applyFont (xlsxToFont ((w.getCell (t.getCol Dictionary.QUESTION) row).font))
    else f
  if param ≠ "" then
    let f := if ft.name == "Prefix" then { f with unit := .s param } else f
    let f := if ft.name == "Postfix" then { f with unit := .s param } else f
    let f := if ft.name == "Enum" then { f with enum := some (splitLines param) } else f
    let f := if ft.name == "Help Text" then f.applyFont (xlsxToFont param) else f
    f
  else f

/-- The field-scoped "Unknown field type." error recorded by `readField`
when the type cell is empty. -/
def unknownFieldTypeError (w : Worksheet) (t : Table) (row : Int) : XlsxError :=
  { text := "Unknown field type."
    message := "Unknown field type."
    worksheet := some w.name
    cell := some (cellPath (t.getCol Dictionary.FIELD_TYPE) row)
    row := some row
    col := some (t.getCol Dictionary.FIELD_TYPE) }

/-- The trailing `//Formulae` block of `readField`: for non-reference
fields, the `Auto-Calculate` marker records no example, while any other
non-empty answer cell is parsed into example values honoring the array
flag. -/
def readFieldExamples (w : Worksheet) (t : Table) (ty : String) (row : Int)
    (f : SchemaField) : SchemaField :=
  if f.isRef = some true then f
  else
    let answer := w.getValue (t.getCol Dictionary.ANSWER) row
    if ty = Dictionary.AUTO_CALCULATE then f
    else if answer ≠ "" then { f with examples := some (xlsxToArray answer f.isArray) }
    else f

/-- The field skeleton `readField` fills first: position-derived name,
description, required and array flags (everything else at its initial
value). -/
def baseField (w : Worksheet) (t : Table) (row : Int) : SchemaField :=
  { name := cellPath (t.getCol Dictionary.ANSWER) row
    description := w.getValue (t.getCol Dictionary.QUESTION) row
    required := xlsxToBoolean (w.getValue (t.getCol Dictionary.REQUIRED_FIELD) row)
    isArray := xlsxToBoolean (w.getValue (t.getCol Dictionary.ALLOW_MULTIPLE_ANSWERS) row) }

/-- The registry-copy step of `readField`: the matched entry's type metadata
is copied onto the field. -/
def copyFieldType (f : SchemaField) (ft : IFieldTypes) : SchemaField :=
  { f with
    type := ft.type, format := ft.format, pattern := ft.pattern
    unit := ft.unit, unitSystem := ft.unitSystem
    customType := ft.customType, hidden := ft.hidden, isRef := ft.isRef }

/-- `XlsxToJson.readField`: extract one field definition from a table row —
position-derived name, description, required and array flags, then the
declared type label: a registry match copies the type metadata and runs
parameter extraction, an unrecognized non-empty label mints a link-cache
reference, and an empty label records an "Unknown field type." error while
keeping the partially populated field.  The source's catch boundary returns
`null`; the embedding is total, so a field is always produced. -/
def readField (w : Worksheet) (t : Table) (row : Int)
    (st : XlsxResultState) : Option SchemaField × XlsxResultState :=
  let ty := w.getValue (t.getCol Dictionary.FIELD_TYPE) row
  match FieldTypes.findByName ty with
  | some ft =>
    let f := readFieldParams w t (copyFieldType (baseField w t row) ft) ft row
    (some (readFieldExamples w t ty row f), st)
  | none =>
    if ty ≠ "" then
      let hyperlink := (w.getCell (t.getCol Dictionary.FIELD_TYPE) row).link
      let (id, st) := st.addLink ty hyperlink
      let f := { baseField w t row with type := .s id, isRef := some true }
      (some (readFieldExamples w t ty row f), st)
    else
      let err := unknownFieldTypeError w t row
      let f := { baseField w t row with
        errors := (baseField w t row).errors ++ [err] }
      (some (readFieldExamples w t ty row f), st.pushError err)

/-- Find the first list element satisfying `p`, replace it in place by its
image under `upd`, and return the updated element together with the updated
list — the functional image of mutating the object found by
`Array.prototype.find`. -/
def updateFirst {α : Type} (p : α → Bool) (upd : α → α) :
    List α → Option (α × List α)
  | [] => none
  | x :: xs =>
    if p x then some (upd x, upd x :: xs)
    else
      match updateFirst p upd xs with
      | some (e, l) => some (e, x :: l)
      | none => none

/-- The "Failed to parse condition." error recorded by `readCondition`. -/
def condParseError (w : Worksheet) (t : Table) (row : Int) (msg : String) :
    XlsxError :=
  { text := "Failed to parse condition."
    message := msg
    worksheet := some w.name
    cell := some (cellPath (t.getCol Dictionary.VISIBILITY) row)
    row := some row
    col := some (t.getCol Dictionary.VISIBILITY) }

/-- Result of one `readCondition` call: the returned condition (if any), the
condition cache after any in-place mutation of a found condition, the field
cache after any hidden-flag or attached-error mutation, and the updated
accumulator state. -/
structure CondStepResult where
  ret : Option XlsxSchemaConditions
  conditionCache : List XlsxSchemaConditions
  fieldCache : List (String × SchemaField)
  st : XlsxResultState

/-- `XlsxToJson.readCondition`: locate the row's field by its answer path;
skip when the sheet has no visibility column; parse the visibility cell
(formula through the constrained grammar, plain value as a boolean
constant).  A parse failure becomes an error attached to the row's field.  A
constant hides the field when false (OR-ed into the hidden flag; a missing
field makes the source's `field.hidden` assignment throw, caught at the
outer boundary as one more condition error).  A formula either finds an
equal accumulated condition and appends this row's field as a dependent —
mutating the cached condition in place — or creates a new condition; a
driving-field lookup failure surfaces as an error attached to the dependent
field (modelled from the spec: the condition constructor is not under
`src/`). -/
def readCondition (w : Worksheet) (t : Table)
    (fieldCache : List (String × SchemaField))
    (conditionCache : List XlsxSchemaConditions)
    (row : Int) (st : XlsxResultState) : CondStepResult :=
  let name := cellPath (t.getCol Dictionary.ANSWER) row
  let fld := getAssoc name fieldCache
  if w.outColumnRange (t.getCol Dictionary.VISIBILITY) then
    ⟨none, conditionCache, fieldCache, st⟩
  else
    let cell := w.getCell (t.getCol Dictionary.VISIBILITY) row
    let resultE : Except String (Option CondResult) :=
      if cell.formulaRaw.isSome then
        parseCondition (.strF (cell.formulaRaw.getD "") cell.formulaTree)
      else if cell.value ≠ "" then
        parseCondition (.boolF (xlsxToBoolean cell.value))
      else .ok none
    match resultE with
    | .error msg =>
      let err := condParseError w t row msg
      let fieldCache :=
        match fld with
        | some f => setAssoc name { f with errors := f.errors ++ [err] } fieldCache
        | none => fieldCache
      ⟨none, conditionCache, fieldCache, st.pushError err⟩
    | .ok none => ⟨none, conditionCache, fieldCache, st⟩
    | .ok (some (.const b)) =>
      match fld with
      | none =>
        let err := condParseError w t row "TypeError: cannot set properties of undefined"
        ⟨none, conditionCache, fieldCache, st.pushError err⟩
      | some f =>
        let f := { f with
          hidden := if f.hidden = some true then some true else some (!b) }
        ⟨none, conditionCache, setAssoc name f fieldCache, st⟩
    | .ok (some (.formulae rf rv inv)) =>
      match updateFirst (fun c => c.equal rf rv)
          (fun c => c.addField (fld.map (·.name)) inv) conditionCache with
      | some (c, cache) => ⟨some c, cache, fieldCache, st⟩
      | none =>
        match getAssoc rf fieldCache with
        | some target =>
          let c := (XlsxSchemaConditions.mk (some target.name) rv []).addField
            (fld.map (·.name)) inv
          ⟨some c, conditionCache, fieldCache, st⟩
        | none =>
          let err := condParseError w t row ("Unknown driving field: " ++ rf)
          let fieldCache :=
            match fld with
            | some f => setAssoc name { f with errors := f.errors ++ [err] } fieldCache
            | none => fieldCache
          ⟨none, conditionCache, fieldCache, st.pushError err⟩

/-- Integer interval `[s, e)` as a list, for the source's `for` loops. -/
def intRange (s e : Int) : List Int :=
  (List.range (e - s).toNat).map (fun i => s + i)

/-- The first scan loop of `parseSheet`: walk rows from the top, record the
schema-name row (first row only) and any schema-header rows, and stop at the
first row whose first cell is a field-column header.  Returns the table and
the row the loop stopped at. -/
def scanSchemaRows (w : Worksheet) (t : Table) (r : Int) :
    Nat → Table × Int
  | 0 => (t, r)
  | fuel + 1 =>
    if r < w.eR then
      let title := w.getValue w.sC r
      let t := if r == w.sR && t.isName title then
          t.setRow Dictionary.SCHEMA_NAME r else t
      let t := if t.isSchemaHeader title then t.setRow title r else t
      if t.isFieldHeader title then (t, r)
      else scanSchemaRows w t (r + 1) fuel
    else (t, r)

/-- The second scan loop of `parseSheet`: map every field-column header
found in the field-header row to its column. -/
def scanFieldCols (w : Worksheet) (t : Table) (r : Int) : Table :=
  (intRange w.sC w.eC).foldl
    (fun t c =>
      let v := w.getValue c r
      if t.isFieldHeader v then t.setCol v c else t)
    t

/-- Both header-scan loops of `parseSheet`: the populated table and the
field-header row. -/
def sheetScan (w : Worksheet) : Table × Int :=
  let s := scanSchemaRows w (Table.init w.sC w.sR) w.sR ((w.eR - w.sR).toNat + 1)
  (scanFieldCols w s.1 s.2, s.2)

/-- The structural "Invalid headers." error recorded when a required header
is missing. -/
def invalidHeadersError (title : String) (wsName : String) : XlsxError :=
  { text := "Invalid headers. Header \"" ++ title ++ "\" not set."
    message := "Invalid headers. Header \"" ++ title ++ "\" not set."
    worksheet := some wsName }

/-- The tool-reference name cell, when the `Tool` header row was found
(`undefined` otherwise). -/
def schemaToolName (w : Worksheet) (t : Table) : Option String :=
  if t.getRow Dictionary.SCHEMA_TOOL ≠ -1 then
    some (w.getValue (w.sC + 1) (t.getRow Dictionary.SCHEMA_TOOL))
  else none

/-- The tool message-id cell, when the `Tool Id` header row was found
(`undefined` otherwise). -/
def schemaMessageId (w : Worksheet) (t : Table) : Option String :=
  if t.getRow Dictionary.SCHEMA_TOOL_ID ≠ -1 then
    some (w.getValue (w.sC + 1) (t.getRow Dictionary.SCHEMA_TOOL_ID))
  else none

/-- The field-reading loop of `parseSheet`: every row produces at most one
field, pushed to the ordered list and registered in the field cache under
its path name. -/
def fieldPhase (w : Worksheet) (t : Table) (rows : List Int)
    (st : XlsxResultState) :
    List SchemaField × List (String × SchemaField) × XlsxResultState :=
  rows.foldl
    (fun acc r =>
      let step := readField w t r acc.2.2
      match step.1 with
      | some f => (acc.1 ++ [f], setAssoc f.name f acc.2.1, step.2)
      | none => (acc.1, acc.2.1, step.2))
    ([], [], st)

/-- The condition-reading loop of `parseSheet`: each row's returned
condition — new or found — is pushed onto the condition cache. -/
def condPhase (w : Worksheet) (t : Table) (rows : List Int)
    (fc : List (String × SchemaField)) (st : XlsxResultState) :
    List XlsxSchemaConditions × List (String × SchemaField) × XlsxResultState :=
  rows.foldl
    (fun acc r =>
      let step := readCondition w t acc.2.1 acc.1 r acc.2.2
      let cc :=
        match step.ret with
        | some c => step.conditionCache ++ [c]
        | none => step.conditionCache
      (cc, step.fieldCache, step.st))
    ([], fc, st)

/-- Modelled from the spec: `SchemaHelper.updateIRI` (in
`@guardian/interfaces`, not under `src/`) computes a schema's stable content
identifier from its resolved shape; only the fact that it fills `iri` and
leaves everything else intact matters here. -/
def updateIRI (s : JSchema) : JSchema :=
  { s with iri := some ("#" ++ s.name) }

/-- `XlsxToJson.parseSheet`: scan headers, short-circuit on a missing
required header with a single structural error, read the schema-level
metadata, emit a tool identity stub when a tool reference or message id is
present, and otherwise run the field and condition loops and finalize the
schema.  (`schema.update` assigns the field list and the serialized
conditions; its source is in `@guardian/interfaces`.)  The source's catch
boundary returns the partial schema; the embedding's sheet body is total, so
it never fires. -/
def parseSheet (w : Worksheet) (st : XlsxResultState) :
    JSchema × XlsxResultState :=
  let schema0 : JSchema := { name := w.name, category := .POLICY }
  let scan := sheetScan w
  let row := scan.2
  match scan.1.getErrorHeader with
  | some title =>
    let err := invalidHeadersError title w.name
    ({ schema0 with errors := [err] }, st.pushError err)
  | none =>
    let t := scan.1.setEnd w.eC row
    let name :=
      if t.getRow Dictionary.SCHEMA_NAME ≠ -1 then
        w.getValue w.sC (t.getRow Dictionary.SCHEMA_NAME)
      else w.name
    let description :=
      if t.getRow Dictionary.SCHEMA_DESCRIPTION ≠ -1 then
        w.getValue (w.sC + 1) (t.getRow Dictionary.SCHEMA_DESCRIPTION)
      else ""
    let entity :=
      if t.getRow Dictionary.SCHEMA_TYPE ≠ -1 then
        xlsxToEntity (w.getValue (w.sC + 1) (t.getRow Dictionary.SCHEMA_TYPE))
      else none
    let schema1 :=
      { schema0 with name := name, description := description, entity := entity }
    let toolName := schemaToolName w t
    let messageId := schemaMessageId w t
    if jsTruthyOpt toolName || jsTruthyOpt messageId then
      ({ schema1 with category := .TOOL, messageId := messageId }, st)
    else
      let rows := intRange (t.endR + 1) w.eR
      let fieldsRes := fieldPhase w t rows st
      let condRes := condPhase w t rows fieldsRes.2.1 fieldsRes.2.2
      let fields := fieldsRes.1.map (fun f => (getAssoc f.name condRes.2.1).getD f)
      let conditions := condRes.1.map XlsxSchemaConditions.toJson
      (updateIRI { schema1 with fields := fields, conditions := conditions },
       condRes.2.2)

/-- The "Sub-schema not found." error recorded by `getSubSchema`, spliced
with the field's (stringified) type. -/
def subSchemaNotFoundError (ty : JStr) : XlsxError :=
  { text := "Sub-schema (" ++ ty.text ++ ") not found."
    message := "Sub-schema (" ++ ty.text ++ ") not found."
    worksheet := some "" }

/-- The cache-resolution pipeline of `XlsxResult.getSubSchema` for a
non-`#GeoJSON` type: look the type up in the link cache; prefer the
worksheet-keyed cache when the link carries a worksheet, then fall back to
the display-name cache under the plain and the tool-qualified name; succeed
only when the entry found carries a truthy IRI. -/
def subSchemaLookup (st : XlsxResultState) (ty : JStr) : Option String :=
  match ty with
  | .s k =>
    match getAssoc k st.linkCache with
    | none => none
    | some link =>
      let cacheW : Option ICache :=
        match link.worksheet with
        | some wsName =>
          if wsName ≠ "" then getAssoc wsName st.schemaWorksheetCache else none
        | none => none
      let cache : Option ICache :=
        match cacheW with
        | some c => some c
        | none =>
          if link.name ≠ "" then
            match getAssoc link.name st.schemaNameCache with
            | some c => some c
            | none => getAssoc ("tool-schema:" ++ link.name) st.schemaNameCache
          else none
      match cache with
      | some c =>
        match c.iri with
        | some iri => if iri ≠ "" then some iri else none
        | none => none
      | none => none
  | _ => none

/-- The combined effect of `field.type = this.getSubSchema(field)` in
`updateSchemas`: a literal `#GeoJSON` type resolves to itself immediately; a
resolvable link resolves to the cached IRI; otherwise a "Sub-schema not
found" error is pushed globally and onto the field, `getSubSchema` sets the
type to `null` but returns `undefined`, and the caller's assignment
overwrites the type with that `undefined` return value. -/
def resolveField (st : XlsxResultState) (f : SchemaField) :
    XlsxResultState × SchemaField :=
  if f.type = .s "#GeoJSON" then (st, { f with type := .s "#GeoJSON" })
  else
    match subSchemaLookup st f.type with
    | some iri => (st, { f with type := .s iri })
    | none =>
      let err := subSchemaNotFoundError f.type
      (st.pushError err, { f with errors := f.errors ++ [err], type := .undef })

/-- The degraded shape `resolveField` leaves on a field whose sub-schema
lookup failed: the "Sub-schema not found" error attached and the type ending
up `undefined`. -/
def degradeField (f : SchemaField) : SchemaField :=
  { f with type := .undef, errors := f.errors ++ [subSchemaNotFoundError f.type] }

/-- The per-schema field walk of `updateSchemas`: reference-typed fields are
resolved (threading the error list), all others are left alone. -/
def resolveFields (st : XlsxResultState) :
    List SchemaField → XlsxResultState × List SchemaField
  | [] => (st, [])
  | f :: fs =>
    let step := if f.isRef = some true then resolveField st f else (st, f)
    let rest := resolveFields step.1 fs
    (rest.1, step.2 :: rest.2)

/-- `updateSchemas` over the schema list.  (`schema.updateRefs` is in
`@guardian/interfaces`; modelled from the spec, the final pass performs no
mutation beyond the type rewrites and error attachments captured here.) -/
def updateSchemasList (st : XlsxResultState) :
    List JSchema → XlsxResultState × List JSchema
  | [] => (st, [])
  | s :: ss =>
    let step := resolveFields st s.fields
    let rest := updateSchemasList step.1 ss
    (rest.1, { s with fields := step.2 } :: rest.2)

/-- `XlsxResult.updateSchemas`: the final resolution pass over every
schema's every reference-typed field. -/
def updateSchemas (st : XlsxResultState) : XlsxResultState :=
  let res := updateSchemasList st st.schemas
  { res.1 with schemas := res.2 }

/-- The whole-document "Failed to parse file." error. -/
def failedToParseError (msg : String) : XlsxError :=
  { text := "Failed to parse file.", message := msg }

/-- `XlsxToJson.parse`: iterate worksheets, classifying each parsed sheet as
tool stub or schema.  The input models the awaited workbook read: `.error`
is a workbook that could not be read, whose exception is caught, recorded as
a "Failed to parse file." error, followed by `clear()` — the embedding is a
total function, mirroring that the source never rethrows. -/
def parse (input : Except String (List Worksheet)) : XlsxResultState :=
  match input with
  | .error e =>
    (XlsxResultState.pushError {} (failedToParseError e)).clear
  | .ok worksheets =>
    worksheets.foldl
      (fun st w =>
        let res := parseSheet w st
        if res.1.category = .TOOL then
          res.2.addTool w res.1.name res.1.messageId
        else res.2.addSchema w res.1.name res.1)
      {}

end Guardian

namespace Guardian

/-- Concrete worksheet exercising the condition merge (claims about the
condition list): a driving field on row 4 and two dependents on rows 5 and 6
whose visibility formulas are `EXACT(C2R4,"X")` and
`NOT(EXACT(C2R4,"X"))`. -/
def wCond : Worksheet :=
  { name := "Cond WS", eC := 7, eR := 7
    cells :=
      [ (0, 0, { value := "Schema A" }),
        (0, 3, { value := "Field Type" }), (1, 3, { value := "Question" }),
        (2, 3, { value := "Answer" }), (3, 3, { value := "Required" }),
        (4, 3, { value := "Allow Multiple Answers" }),
        (5, 3, { value := "Parameter" }), (6, 3, { value := "Visibility" }),
        (0, 4, { value := "Text" }),
        (0, 5, { value := "Text" }),
        (6, 5, { formulaRaw := some "EXACT(C2R4,\"X\")"
                 formulaTree := some (.func "EXACT"
                   [.symbol "C2R4", .constant "X"]) }),
        (0, 6, { value := "Text" }),
        (6, 6, { formulaRaw := some "NOT(EXACT(C2R4,\"X\"))"
                 formulaTree := some (.func "NOT"
                   [.func "EXACT" [.symbol "C2R4", .constant "X"]]) }) ] }

/-- The single merged condition produced from `wCond`: driving field
`C2R4`, comparison value `"X"`, dependents rows 5 (plain) and 6
(inverted). -/
def cCond : XlsxSchemaConditions :=
  { field := some "C2R4", value := "X"
    conds := [(some "C2R5", false), (some "C2R6", true)] }

/-- A reference-typed field whose link id is absent from every cache. -/
def fBroken : SchemaField :=
  { name := "C2R10", type := .s "link_0", isRef := some true }

/-- An ordinary sibling field in the same schema. -/
def fSib : SchemaField :=
  { name := "C2R11", type := .s "string" }

/-- An accumulator state holding one schema with a dangling reference field
and a plain sibling, and no cache entries at all. -/
def stC3 : XlsxResultState :=
  { schemas := [{ name := "S", fields := [fBroken, fSib] }] }

/-- A worksheet with no populated cells: every required header is
missing. -/
def wEmpty : Worksheet := { name := "Empty WS", eC := 3, eR := 3 }

/-- Concrete worksheet declaring a tool reference (`Tool` / `Tool Id`
schema rows) above a complete field-header row. -/
def wTool : Worksheet :=
  { name := "Tool WS", eC := 7, eR := 6
    cells :=
      [ (0, 0, { value := "My Tool Schema" }),
        (0, 1, { value := "Tool" }), (1, 1, { value := "CO2Tool" }),
        (0, 2, { value := "Tool Id" }), (1, 2, { value := "0.0.555" }),
        (0, 3, { value := "Field Type" }), (1, 3, { value := "Question" }),
        (2, 3, { value := "Answer" }), (3, 3, { value := "Required" }),
        (4, 3, { value := "Allow Multiple Answers" }),
        (5, 3, { value := "Parameter" }) ] }

/-- Header table for single-row field-reader checks: the six required
field columns at columns 0–5, no visibility column. -/
def tRowOnly : Table :=
  { rows := [], endC := 7, endR := 3
    cols :=
      [ (Dictionary.FIELD_TYPE, 0), (Dictionary.QUESTION, 1),
        (Dictionary.ANSWER, 2), (Dictionary.REQUIRED_FIELD, 3),
        (Dictionary.ALLOW_MULTIPLE_ANSWERS, 4), (Dictionary.PARAMETER, 5) ] }

/-- Worksheet with one `Enum` field row (row 5) carrying both a
data-validation list and a newline-delimited parameter cell. -/
def wEnumRow : Worksheet :=
  { name := "Enum WS", eC := 7, eR := 7
    cells :=
      [ (0, 5, { value := "Enum" }),
        (2, 5, { value := "Low", list := some ["A", "B"] }),
        (5, 5, { value := "Low\nMedium\nHigh" }) ] }

/-- The field the reader produces from row 5 of `wEnumRow`. -/
def gEnumRow : SchemaField :=
  { name := "C2R5", type := .s "string", customType := .s "enum"
    hidden := none, isRef := some false
    enum := some ["Low", "Medium", "High"], examples := some ["Low"] }

/-- The `Enum` registry entry. -/
def ftEnum : IFieldTypes :=
  { name := "Enum", type := .s "string", customType := .s "enum" }

/-- Worksheet with one field row (row 6) whose type cell is empty but whose
question and required cells are populated. -/
def wNoType : Worksheet :=
  { name := "NoType WS", eC := 7, eR := 8
    cells := [ (1, 6, { value := "What?" }), (3, 6, { value := "true" }) ] }

/-- A `#GeoJSON`-typed reference field. -/
def fGeo : SchemaField :=
  { name := "geo", type := .s "#GeoJSON", isRef := some true }

/-- A state whose caches even contain entries keyed by `#GeoJSON`, to
exercise that the caches are irrelevant to the `#GeoJSON` short-circuit. -/
def stGeo : XlsxResultState :=
  { linkCache := [("#GeoJSON", { name := "x", worksheet := some "x" })]
    schemaWorksheetCache := [("x", { name := "x" })]
    schemaNameCache := [("x", { name := "x" })] }

/-- `setEnd` only moves the end corner; header-row lookups are unchanged. -/
theorem Table.getRow_setEnd (t : Table) (c r : Int) (l : String) :
    (t.setEnd c r).getRow l = t.getRow l := rfl

/-- `setEnd` only moves the end corner; header-column lookups are
unchanged. -/
theorem Table.getCol_setEnd (t : Table) (c r : Int) (l : String) :
    (t.setEnd c r).getCol l = t.getCol l := rfl

/-- The tool-name read does not depend on the table's end corner. -/
theorem schemaToolName_setEnd (w : Worksheet) (t : Table) (c r : Int) :
    schemaToolName w (t.setEnd c r) = schemaToolName w t := rfl

/-- The message-id read does not depend on the table's end corner. -/
theorem schemaMessageId_setEnd (w : Worksheet) (t : Table) (c r : Int) :
    schemaMessageId w (t.setEnd c r) = schemaMessageId w t := rfl

/-- The example-extraction block either leaves the field alone or only sets
its `examples` property. -/
theorem readFieldExamples_cases (w : Worksheet) (t : Table) (ty : String)
    (row : Int) (f : SchemaField) :
    readFieldExamples w t ty row f = f ∨
    readFieldExamples w t ty row f =
      { f with examples := some (xlsxToArray
          (w.getValue (t.getCol Dictionary.ANSWER) row) f.isArray) } := by
  unfold readFieldExamples
  by_cases h1 : f.isRef = some true
  · simp [h1]
  · by_cases h2 : ty = Dictionary.AUTO_CALCULATE
    · simp [h1, h2]
    · by_cases h3 : w.getValue (t.getCol Dictionary.ANSWER) row = ""
      · simp [h1, h2, h3]
      · simp [h1, h2, h3]

/-- Parameter extraction touches only the unit, enum and font properties:
everything else on the field is preserved. -/
theorem readFieldParams_preserves (w : Worksheet) (t : Table)
    (f : SchemaField) (ft : IFieldTypes) (row : Int) :
    (readFieldParams w t f ft row).format = f.format ∧
    (readFieldParams w t f ft row).pattern = f.pattern ∧
    (readFieldParams w t f ft row).unitSystem = f.unitSystem ∧
    (readFieldParams w t f ft row).customType = f.customType ∧
    (readFieldParams w t f ft row).name = f.name ∧
    (readFieldParams w t f ft row).description = f.description ∧
    (readFieldParams w t f ft row).required = f.required ∧
    (readFieldParams w t f ft row).isArray = f.isArray ∧
    (readFieldParams w t f ft row).type = f.type ∧
    (readFieldParams w t f ft row).errors = f.errors ∧
    (readFieldParams w t f ft row).isRef = f.isRef ∧
    (readFieldParams w t f ft row).hidden = f.hidden := by
  simp only [readFieldParams, SchemaField.applyFont]
  split_ifs <;>
    exact ⟨rfl, rfl, rfl, rfl, rfl, rfl, rfl, rfl, rfl, rfl, rfl, rfl⟩

/-- The field walk of the resolution pass passes over a non-reference
run of fields without touching them or the state. -/
theorem resolveFields_append_nonref (st : XlsxResultState)
    (rest : List SchemaField) (fs₁ : List SchemaField)
    (h : ∀ g ∈ fs₁, g.isRef ≠ some true) :
    resolveFields st (fs₁ ++ rest) =
      ((resolveFields st rest).1, fs₁ ++ (resolveFields st rest).2) := by
  induction fs₁ with
  | nil => rfl
  | cons f fs ih =>
    have hf : f.isRef ≠ some true := h f (List.mem_cons_self f fs)
    have hrest := ih (fun g hg => h g (List.mem_cons_of_mem f hg))
    simp only [List.cons_append, resolveFields, if_neg hf, List.append_eq]
    rw [hrest]

/-- A list of non-reference fields is left entirely alone by the resolution
pass. -/
theorem resolveFields_all_nonref (st : XlsxResultState)
    (fs : List SchemaField) (h : ∀ g ∈ fs, g.isRef ≠ some true) :
    resolveFields st fs = (st, fs) := by
  have := resolveFields_append_nonref st [] fs h
  simpa [resolveFields] using this

end Guardian

namespace Guardian

/-- Claim C1: for a visibility formula `EXACT(ref, literal)` the source
returns the reference as the driving field and the literal as the value,
but for the swapped shape `EXACT(literal, ref)` it returns the literal as
the driving field and the reference name as the value — the two argument
orders do not produce the same formula condition. -/
theorem parseCondition_exact_argument_order_divergence :
    parseCondition (.strF "EXACT(G11,\"X\")"
        (some (.func "EXACT" [.symbol "G11", .constant "X"]))) =
      .ok (some (.formulae "G11" "X" false)) ∧
    parseCondition (.strF "EXACT(\"X\",G11)"
        (some (.func "EXACT" [.constant "X", .symbol "G11"]))) =
      .ok (some (.formulae "X" "G11" false)) ∧
    CondResult.formulae "X" "G11" false ≠ CondResult.formulae "G11" "X" false :=
  ⟨rfl, rfl, by decide⟩

/-- Claim C2: parsing a sheet with `EXACT(C2R4,"X")` on the row-5 field and
`NOT(EXACT(C2R4,"X"))` on the row-6 field does accumulate both dependents
(with invert flags `false` and `true`) on one merged condition, but the
sheet's resulting condition list holds that merged condition twice —
`readCondition` returns the found condition and the sheet loop pushes every
returned condition — so the list does not contain exactly one condition for
the (driving field, value) pair. -/
theorem parseSheet_merged_condition_duplicated :
    (parseSheet wCond {}).1.conditions = [cCond, cCond] ∧
    cCond.conds = [(some "C2R5", false), (some "C2R6", true)] ∧
    (parseSheet wCond {}).1.conditions.length = 2 ∧
    (parseSheet wCond {}).1.conditions.length ≠ 1 :=
  ⟨by decide, by decide, by decide, by decide⟩

/-- Claim C3 counterexample: running the final resolution pass over a schema
whose first field is a dangling reference leaves that field's type
`undefined`, not `null` — `getSubSchema` assigns `null` internally but
returns no value, and `updateSchemas` overwrites the type with the
`undefined` return — so `field.type === null` fails. -/
theorem updateSchemas_dangling_reference_type_is_undef :
    (updateSchemas stC3).schemas.map (fun s => s.fields.map (·.type)) =
      [[JStr.undef, JStr.s "string"]] ∧
    JStr.undef ≠ JStr.null :=
  ⟨by decide, by decide⟩

/-- Claim C3 (amended): for every reference-typed field whose link resolves
to no cache entry with a truthy IRI, the final resolution pass records one
"Sub-schema not found" error globally and on the field and leaves the
field's type `undefined` (cleared, though not the literal `null` the claim
states), while every non-reference sibling field of the same schema is
untouched. -/
theorem updateSchemas_dangling_reference_degrades_field
    (st : XlsxResultState) (s : JSchema) (fs₁ fs₂ : List SchemaField)
    (f : SchemaField)
    (h₁ : ∀ g ∈ fs₁, g.isRef ≠ some true)
    (h₂ : ∀ g ∈ fs₂, g.isRef ≠ some true)
    (hf : f.isRef = some true)
    (hgeo : f.type ≠ .s "#GeoJSON")
    (hlook : subSchemaLookup st f.type = none)
    (hs : st.schemas = [{ s with fields := fs₁ ++ f :: fs₂ }]) :
    (updateSchemas st).schemas =
      [{ s with fields := fs₁ ++ degradeField f :: fs₂ }] ∧
    (updateSchemas st).errors = st.errors ++ [subSchemaNotFoundError f.type] := by
  have hres : resolveField st f =
      (st.pushError (subSchemaNotFoundError f.type), degradeField f) := by
    unfold resolveField degradeField
    rw [if_neg hgeo, hlook]
  have hcons : resolveFields st (f :: fs₂) =
      (st.pushError (subSchemaNotFoundError f.type), degradeField f :: fs₂) := by
    simp only [resolveFields, hf, if_pos, hres,
      resolveFields_all_nonref (st.pushError (subSchemaNotFoundError f.type)) fs₂ h₂]
  have hfs : resolveFields st (fs₁ ++ f :: fs₂) =
      (st.pushError (subSchemaNotFoundError f.type),
       fs₁ ++ degradeField f :: fs₂) := by
    rw [resolveFields_append_nonref st (f :: fs₂) fs₁ h₁, hcons]
  unfold updateSchemas
  rw [hs]
  simp only [updateSchemasList]
  rw [hfs]
  exact ⟨rfl, rfl⟩

/-- Claim C3 witness: the amended theorem applied to the concrete state
`stC3` (one dangling reference field, one plain sibling, empty caches). -/
theorem updateSchemas_dangling_reference_degrades_field_witness :
    (updateSchemas stC3).schemas =
      [{ name := "S", fields := [degradeField fBroken, fSib] }] ∧
    (updateSchemas stC3).errors = [subSchemaNotFoundError (.s "link_0")] := by
  have h := updateSchemas_dangling_reference_degrades_field stC3
    { name := "S" } [] [fSib] fBroken (by simp) (by decide) rfl (by decide)
    (by decide) rfl
  exact ⟨by simpa using h.1, by simpa using h.2⟩

/-- Claim C4: when the header table reports a required header as missing,
the sheet parse short-circuits: it returns the schema stub with zero fields
and exactly the one "Invalid headers" structural error, recording that same
single error in the accumulator, without attempting field extraction. -/
theorem parseSheet_missing_header_short_circuits
    (w : Worksheet) (st : XlsxResultState) (title : String)
    (h : (sheetScan w).1.getErrorHeader = some title) :
    parseSheet w st =
      ({ name := w.name, errors := [invalidHeadersError title w.name] },
       st.pushError (invalidHeadersError title w.name)) ∧
    (parseSheet w st).1.fields = [] ∧
    (parseSheet w st).2.errors = st.errors ++ [invalidHeadersError title w.name] := by
  have hmain : parseSheet w st =
      ({ name := w.name, errors := [invalidHeadersError title w.name] },
       st.pushError (invalidHeadersError title w.name)) := by
    simp only [parseSheet, h]
  exact ⟨hmain, by rw [hmain], by rw [hmain]; rfl⟩

/-- Claim C4 witness: the theorem applied to a worksheet with no populated
cells, whose first missing required header is "Field Type". -/
theorem parseSheet_missing_header_short_circuits_witness :
    parseSheet wEmpty {} =
      ({ name := "Empty WS",
         errors := [invalidHeadersError Dictionary.FIELD_TYPE "Empty WS"] },
       XlsxResultState.pushError {}
         (invalidHeadersError Dictionary.FIELD_TYPE "Empty WS")) ∧
    (parseSheet wEmpty {}).1.fields = [] ∧
    (parseSheet wEmpty {}).2.errors =
      [invalidHeadersError Dictionary.FIELD_TYPE "Empty WS"] :=
  parseSheet_missing_header_short_circuits wEmpty {} Dictionary.FIELD_TYPE
    (by decide)

/-- Claim C8: a whole-document failure (the workbook cannot be read) is
caught: `parse` still returns a result — the embedding is a total function —
whose accumulated state has been cleared, so the serialized output carries
no schemas and no tools, only the errors including "Failed to parse
file.". -/
theorem parse_document_failure_errors_only (e : String) :
    parse (.error e) = ({ errors := [failedToParseError e] } : XlsxResultState) ∧
    (parse (.error e)).toJson.schemas = [] ∧
    (parse (.error e)).toJson.tools = [] ∧
    failedToParseError e ∈ (parse (.error e)).toJson.errors := by
  refine ⟨rfl, rfl, rfl, ?_⟩
  simp [parse, XlsxResultState.toJson, XlsxResultState.clear,
    XlsxResultState.pushError]

/-- Claim C9: `clear()` empties the schema list, the tool list and all four
cache maps but leaves the accumulated errors untouched, so every error
recorded before `clear()` is still present in the `toJson` output
afterwards. -/
theorem clear_preserves_errors (st : XlsxResultState) :
    st.clear =
      { schemas := [], tools := [], errors := st.errors, toolsCache := [],
        schemaWorksheetCache := [], schemaNameCache := [], linkCache := [] } ∧
    st.clear.toJson.errors = st.errors ∧
    st.clear.toJson.schemas = [] ∧
    st.clear.toJson.tools = [] :=
  ⟨rfl, rfl, rfl, rfl⟩

/-- Claim C10: a field whose type is the literal `#GeoJSON` is resolved to
`#GeoJSON` immediately by `getSubSchema`: for every accumulator state —
whatever the link and reference caches hold — the state (in particular the
error list) is returned unchanged and the field keeps its type. -/
theorem resolveField_geojson_immediate (st : XlsxResultState)
    (f : SchemaField) (h : f.type = .s "#GeoJSON") :
    resolveField st f = (st, f) := by
  unfold resolveField
  rw [if_pos h, ← h]

/-- Claim C10 witness: the theorem applied at a concrete field and a state
with (irrelevant) cache entries. -/
theorem resolveField_geojson_immediate_witness :
    resolveField stGeo fGeo = (stGeo, fGeo) :=
  resolveField_geojson_immediate stGeo fGeo rfl

/-- The example block preserves a field's unit. -/
theorem readFieldExamples_unit (w : Worksheet) (t : Table) (ty : String)
    (row : Int) (f : SchemaField) :
    (readFieldExamples w t ty row f).unit = f.unit := by
  rcases readFieldExamples_cases w t ty row f with h | h <;> rw [h]

/-- The example block preserves a field's format. -/
theorem readFieldExamples_format (w : Worksheet) (t : Table) (ty : String)
    (row : Int) (f : SchemaField) :
    (readFieldExamples w t ty row f).format = f.format := by
  rcases readFieldExamples_cases w t ty row f with h | h <;> rw [h]

/-- The example block preserves a field's pattern. -/
theorem readFieldExamples_pattern (w : Worksheet) (t : Table) (ty : String)
    (row : Int) (f : SchemaField) :
    (readFieldExamples w t ty row f).pattern = f.pattern := by
  rcases readFieldExamples_cases w t ty row f with h | h <;> rw [h]

/-- The example block preserves a field's unit system. -/
theorem readFieldExamples_unitSystem (w : Worksheet) (t : Table) (ty : String)
    (row : Int) (f : SchemaField) :
    (readFieldExamples w t ty row f).unitSystem = f.unitSystem := by
  rcases readFieldExamples_cases w t ty row f with h | h <;> rw [h]

/-- The example block preserves a field's custom type. -/
theorem readFieldExamples_customType (w : Worksheet) (t : Table) (ty : String)
    (row : Int) (f : SchemaField) :
    (readFieldExamples w t ty row f).customType = f.customType := by
  rcases readFieldExamples_cases w t ty row f with h | h <;> rw [h]

/-- The example block preserves a field's enum values. -/
theorem readFieldExamples_enum (w : Worksheet) (t : Table) (ty : String)
    (row : Int) (f : SchemaField) :
    (readFieldExamples w t ty row f).enum = f.enum := by
  rcases readFieldExamples_cases w t ty row f with h | h <;> rw [h]

/-- The example block preserves a field's font. -/
theorem readFieldExamples_font (w : Worksheet) (t : Table) (ty : String)
    (row : Int) (f : SchemaField) :
    (readFieldExamples w t ty row f).font = f.font := by
  rcases readFieldExamples_cases w t ty row f with h | h <;> rw [h]

/-- The example block preserves a field's type. -/
theorem readFieldExamples_type (w : Worksheet) (t : Table) (ty : String)
    (row : Int) (f : SchemaField) :
    (readFieldExamples w t ty row f).type = f.type := by
  rcases readFieldExamples_cases w t ty row f with h | h <;> rw [h]

/-- The example block preserves a field's name. -/
theorem readFieldExamples_name (w : Worksheet) (t : Table) (ty : String)
    (row : Int) (f : SchemaField) :
    (readFieldExamples w t ty row f).name = f.name := by
  rcases readFieldExamples_cases w t ty row f with h | h <;> rw [h]

/-- The example block preserves a field's description. -/
theorem readFieldExamples_description (w : Worksheet) (t : Table) (ty : String)
    (row : Int) (f : SchemaField) :
    (readFieldExamples w t ty row f).description = f.description := by
  rcases readFieldExamples_cases w t ty row f with h | h <;> rw [h]

/-- The example block preserves a field's required flag. -/
theorem readFieldExamples_required (w : Worksheet) (t : Table) (ty : String)
    (row : Int) (f : SchemaField) :
    (readFieldExamples w t ty row f).required = f.required := by
  rcases readFieldExamples_cases w t ty row f with h | h <;> rw [h]

/-- The example block preserves a field's array flag. -/
theorem readFieldExamples_isArray (w : Worksheet) (t : Table) (ty : String)
    (row : Int) (f : SchemaField) :
    (readFieldExamples w t ty row f).isArray = f.isArray := by
  rcases readFieldExamples_cases w t ty row f with h | h <;> rw [h]

/-- The example block preserves a field's attached errors. -/
theorem readFieldExamples_errors (w : Worksheet) (t : Table) (ty : String)
    (row : Int) (f : SchemaField) :
    (readFieldExamples w t ty row f).errors = f.errors := by
  rcases readFieldExamples_cases w t ty row f with h | h <;> rw [h]

/-- A non-empty parameter cell forces the unit for `Prefix` and `Postfix`
fields to the parameter text. -/
theorem readFieldParams_unit_param (w : Worksheet) (t : Table)
    (f : SchemaField) (ft : IFieldTypes) (row : Int)
    (hname : ft.name = "Prefix" ∨ ft.name = "Postfix")
    (hp : w.getValue (t.getCol Dictionary.PARAMETER) row ≠ "") :
    (readFieldParams w t f ft row).unit =
      .s (w.getValue (t.getCol Dictionary.PARAMETER) row) := by
  rcases hname with h | h <;>
    simp [readFieldParams, SchemaField.applyFont, h, hp]

/-- With an empty parameter cell the unit for `Prefix` and `Postfix` fields
is derived from the answer cell's number format. -/
theorem readFieldParams_unit_format (w : Worksheet) (t : Table)
    (f : SchemaField) (ft : IFieldTypes) (row : Int)
    (hname : ft.name = "Prefix" ∨ ft.name = "Postfix")
    (hp : w.getValue (t.getCol Dictionary.PARAMETER) row = "") :
    (readFieldParams w t f ft row).unit =
      xlsxToUnit ((w.getCell (t.getCol Dictionary.ANSWER) row).format) := by
  rcases hname with h | h <;>
    simp [readFieldParams, SchemaField.applyFont, h, hp]

/-- For a type that is neither `Prefix` nor `Postfix` the unit is left as it
was. -/
theorem readFieldParams_unit_other (w : Worksheet) (t : Table)
    (f : SchemaField) (ft : IFieldTypes) (row : Int)
    (hnp : ft.name ≠ "Prefix") (hnpp : ft.name ≠ "Postfix") :
    (readFieldParams w t f ft row).unit = f.unit := by
  simp only [readFieldParams, SchemaField.applyFont]
  split_ifs <;> simp_all [beq_iff_eq]

/-- A non-empty parameter cell forces the enum list of an `Enum` field to
the newline-split parameter text. -/
theorem readFieldParams_enum_param (w : Worksheet) (t : Table)
    (f : SchemaField) (ft : IFieldTypes) (row : Int)
    (hname : ft.name = "Enum")
    (hp : w.getValue (t.getCol Dictionary.PARAMETER) row ≠ "") :
    (readFieldParams w t f ft row).enum =
      some (splitLines (w.getValue (t.getCol Dictionary.PARAMETER) row)) := by
  simp [readFieldParams, SchemaField.applyFont, hname, hp]

/-- With an empty parameter cell the enum list of an `Enum` field comes from
the answer cell's data-validation list. -/
theorem readFieldParams_enum_noparam (w : Worksheet) (t : Table)
    (f : SchemaField) (ft : IFieldTypes) (row : Int)
    (hname : ft.name = "Enum")
    (hp : w.getValue (t.getCol Dictionary.PARAMETER) row = "") :
    (readFieldParams w t f ft row).enum =
      (w.getCell (t.getCol Dictionary.ANSWER) row).list := by
  simp [readFieldParams, SchemaField.applyFont, hname, hp]

/-- A non-empty parameter cell forces the font of a `Help Text` field to be
parsed from the parameter text. -/
theorem readFieldParams_font_param (w : Worksheet) (t : Table)
    (f : SchemaField) (ft : IFieldTypes) (row : Int)
    (hname : ft.name = "Help Text")
    (hp : w.getValue (t.getCol Dictionary.PARAMETER) row ≠ "") :
    (readFieldParams w t f ft row).font =
      some (xlsxToFont (w.getValue (t.getCol Dictionary.PARAMETER) row)) := by
  simp [readFieldParams, SchemaField.applyFont, hname, hp]

/-- With an empty parameter cell the font of a `Help Text` field is derived
from the question cell's styling. -/
theorem readFieldParams_font_noparam (w : Worksheet) (t : Table)
    (f : SchemaField) (ft : IFieldTypes) (row : Int)
    (hname : ft.name = "Help Text")
    (hp : w.getValue (t.getCol Dictionary.PARAMETER) row = "") :
    (readFieldParams w t f ft row).font =
      some (xlsxToFont ((w.getCell (t.getCol Dictionary.QUESTION) row).font)) := by
  simp [readFieldParams, SchemaField.applyFont, hname, hp]

/-- Claim C5: for a row whose type label matches a registry entry, the
produced field's format, pattern, unit-system and custom type are exactly
the registry entry's; with a non-empty parameter cell the parameter value
completely overrides the derived value (the unit for `Prefix`/`Postfix`,
the newline-split enum list for `Enum`, the font for `Help Text`), and with
an empty parameter cell the field carries exactly the registry entry's and
format/validation-derived values. -/
theorem readField_parameter_override_total
    (w : Worksheet) (t : Table) (row : Int) (st : XlsxResultState)
    (ft : IFieldTypes) (g : SchemaField)
    (hft : FieldTypes.findByName
      (w.getValue (t.getCol Dictionary.FIELD_TYPE) row) = some ft)
    (hg : (readField w t row st).1 = some g) :
    g.format = ft.format ∧ g.pattern = ft.pattern ∧
    g.unitSystem = ft.unitSystem ∧ g.customType = ft.customType ∧
    (w.getValue (t.getCol Dictionary.PARAMETER) row ≠ "" →
      (ft.name = "Prefix" ∨ ft.name = "Postfix" →
        g.unit = .s (w.getValue (t.getCol Dictionary.PARAMETER) row)) ∧
      (ft.name = "Enum" →
        g.enum = some (splitLines (w.getValue (t.getCol Dictionary.PARAMETER) row))) ∧
      (ft.name = "Help Text" →
        g.font = some (xlsxToFont (w.getValue (t.getCol Dictionary.PARAMETER) row)))) ∧
    (w.getValue (t.getCol Dictionary.PARAMETER) row = "" →
      (ft.name = "Prefix" ∨ ft.name = "Postfix" →
        g.unit = xlsxToUnit ((w.getCell (t.getCol Dictionary.ANSWER) row).format)) ∧
      (ft.name ≠ "Prefix" → ft.name ≠ "Postfix" → g.unit = ft.unit) ∧
      (ft.name = "Enum" →
        g.enum = (w.getCell (t.getCol Dictionary.ANSWER) row).list) ∧
      (ft.name = "Help Text" →
        g.font = some (xlsxToFont ((w.getCell (t.getCol Dictionary.QUESTION) row).font)))) := by
  simp only [readField, hft, Option.some.injEq] at hg
  subst hg
  refine ⟨?_, ?_, ?_, ?_,
    fun hp => ⟨fun hor => ?_, fun hE => ?_, fun hH => ?_⟩,
    fun hp => ⟨fun hor => ?_, fun hnp hnpp => ?_, fun hE => ?_, fun hH => ?_⟩⟩ <;>
    simp only [readFieldExamples_format, readFieldExamples_pattern,
      readFieldExamples_unitSystem, readFieldExamples_customType,
      readFieldExamples_unit, readFieldExamples_enum, readFieldExamples_font]
  · exact ((readFieldParams_preserves w t (copyFieldType (baseField w t row) ft)
      ft row).1)
  · exact ((readFieldParams_preserves w t (copyFieldType (baseField w t row) ft)
      ft row).2.1)
  · exact ((readFieldParams_preserves w t (copyFieldType (baseField w t row) ft)
      ft row).2.2.1)
  · exact ((readFieldParams_preserves w t (copyFieldType (baseField w t row) ft)
      ft row).2.2.2.1)
  · exact readFieldParams_unit_param w t _ ft row hor hp
  · exact readFieldParams_enum_param w t _ ft row hE hp
  · exact readFieldParams_font_param w t _ ft row hH hp
  · exact readFieldParams_unit_format w t _ ft row hor hp
  · exact (readFieldParams_unit_other w t _ ft row hnp hnpp)
  · exact readFieldParams_enum_noparam w t _ ft row hE hp
  · exact readFieldParams_font_noparam w t _ ft row hH hp

/-- Claim C5 witness: the theorem applied to the concrete `Enum` row of
`wEnumRow`, whose parameter cell is `"Low\nMedium\nHigh"`: the parameter
overrides the data-validation list, and the untouched properties equal the
registry entry's. -/
theorem readField_parameter_override_total_witness :
    (readField wEnumRow tRowOnly 5 ({} : XlsxResultState)).1 = some gEnumRow ∧
    gEnumRow.enum = some ["Low", "Medium", "High"] ∧
    gEnumRow.customType = ftEnum.customType := by
  have h := readField_parameter_override_total wEnumRow tRowOnly 5 {} ftEnum
    gEnumRow (by decide) (by decide)
  refine ⟨by decide, ?_, h.2.2.2.1⟩
  have h2 := (h.2.2.2.2.1 (by decide)).2.1 rfl
  calc gEnumRow.enum
      = some (splitLines (wEnumRow.getValue (tRowOnly.getCol Dictionary.PARAMETER) 5)) := h2
    _ = some ["Low", "Medium", "High"] := by decide

/-- Claim C6: a field row whose type cell is empty still yields a field (the
row is not skipped) with exactly one "Unknown field type." error attached,
`type` still `null`, and the name, description, required and array-flag
values populated from the row; the same single error is recorded in the
accumulator. -/
theorem readField_empty_type_degrades
    (w : Worksheet) (t : Table) (row : Int) (st : XlsxResultState)
    (h : w.getValue (t.getCol Dictionary.FIELD_TYPE) row = "") :
    ∃ g, (readField w t row st).1 = some g ∧
      g.type = .null ∧
      g.errors = [unknownFieldTypeError w t row] ∧
      g.name = cellPath (t.getCol Dictionary.ANSWER) row ∧
      g.description = w.getValue (t.getCol Dictionary.QUESTION) row ∧
      g.required = xlsxToBoolean (w.getValue (t.getCol Dictionary.REQUIRED_FIELD) row) ∧
      g.isArray = xlsxToBoolean (w.getValue (t.getCol Dictionary.ALLOW_MULTIPLE_ANSWERS) row) ∧
      (readField w t row st).2.errors = st.errors ++ [unknownFieldTypeError w t row] := by
  have hreg : FieldTypes.findByName "" = none := by decide
  refine ⟨readFieldExamples w t "" row
    { baseField w t row with
      errors := (baseField w t row).errors ++ [unknownFieldTypeError w t row] },
    ?_, ?_, ?_, ?_, ?_, ?_, ?_, ?_⟩ <;>
    simp only [readField, h, hreg, readFieldExamples_type,
      readFieldExamples_errors, readFieldExamples_name,
      readFieldExamples_description, readFieldExamples_required,
      readFieldExamples_isArray] <;>
    rfl

/-- Claim C6 witness: the theorem applied to the concrete row 6 of
`wNoType`, whose type cell is empty while the question and required cells
are populated. -/
theorem readField_empty_type_degrades_witness :
    ∃ g, (readField wNoType tRowOnly 6 ({} : XlsxResultState)).1 = some g ∧
      g.type = .null ∧
      g.errors = [unknownFieldTypeError wNoType tRowOnly 6] ∧
      g.name = cellPath (tRowOnly.getCol Dictionary.ANSWER) 6 ∧
      g.description = wNoType.getValue (tRowOnly.getCol Dictionary.QUESTION) 6 ∧
      g.required = xlsxToBoolean (wNoType.getValue (tRowOnly.getCol Dictionary.REQUIRED_FIELD) 6) ∧
      g.isArray = xlsxToBoolean (wNoType.getValue (tRowOnly.getCol Dictionary.ALLOW_MULTIPLE_ANSWERS) 6) ∧
      (readField wNoType tRowOnly 6 ({} : XlsxResultState)).2.errors =
        [unknownFieldTypeError wNoType tRowOnly 6] :=
  readField_empty_type_degrades wNoType tRowOnly 6 {} (by decide)

/-- Claim C7: when the schema-level metadata carries a (truthy) tool name or
tool message id, the sheet yields a `TOOL`-category identity stub whose
`messageId` is the tool-id cell's value, with zero fields and zero
conditions, and no field rows are read (the accumulator state is returned
unchanged). -/
theorem parseSheet_tool_stub (w : Worksheet) (st : XlsxResultState)
    (h1 : (sheetScan w).1.getErrorHeader = none)
    (h2 : (jsTruthyOpt (schemaToolName w (sheetScan w).1) ||
           jsTruthyOpt (schemaMessageId w (sheetScan w).1)) = true) :
    (parseSheet w st).1.category = .TOOL ∧
    (parseSheet w st).1.messageId = schemaMessageId w (sheetScan w).1 ∧
    (parseSheet w st).1.fields = [] ∧
    (parseSheet w st).1.conditions = [] ∧
    (parseSheet w st).2 = st := by
  simp only [parseSheet, h1, schemaToolName_setEnd, schemaMessageId_setEnd,
    h2, if_true]
  exact ⟨trivial, trivial, trivial, trivial, trivial⟩

/-- Claim C7 witness: the theorem applied to `wTool` (`Tool = "CO2Tool"`,
`Tool Id = "0.0.555"`), with the message id evaluated to `"0.0.555"`. -/
theorem parseSheet_tool_stub_witness :
    (parseSheet wTool {}).1.category = SchemaCategory.TOOL ∧
    (parseSheet wTool {}).1.messageId = some "0.0.555" ∧
    (parseSheet wTool {}).1.fields = [] ∧
    (parseSheet wTool {}).2 = ({} : XlsxResultState) := by
  have h := parseSheet_tool_stub wTool {} (by decide) (by decide)
  exact ⟨h.1, h.2.1.trans (by decide), h.2.2.1, h.2.2.2.2⟩

end Guardian
